import Mathlib

/-!
Verification of the data-transformation pipeline of the React-Spotify
dashboard: genre extraction, duration/popularity binning, per-artist
aggregation and top-N selection, the dense (year, genre) heatmap grid,
the cross-chart artist filter, and the timestep-cursor drag handler.

JS values are modelled as follows: CSV cells are `Option String`
(a column may be absent), JS numbers that matter to the pipeline are `ℚ`
with NaN modelled as `none` in `Option ℚ`, and JS stable `Array.sort`
is modelled by the stable `List.insertionSort`.
-/

namespace Spotify

/-- The single-quote character, via its code point. -/
def squote : String := (Char.ofNat 39).toString

/-- The double-quote character, via its code point. -/
def dquote : String := (Char.ofNat 34).toString

/-- Strips every occurrence of the characters stripped by
`pickPrimaryGenre`: the source applies `replaceAll` with the four
single-character patterns left bracket, right bracket, single quote and
double quote and the empty replacement, i.e. it deletes those characters. -/
def stripGenreChars (s : String) : String :=
  String.mk (s.toList.filter
    (fun c => decide (c ≠ Char.ofNat 91 ∧ c ≠ Char.ofNat 93 ∧
      c ≠ Char.ofNat 39 ∧ c ≠ Char.ofNat 34)))

/-- JS `String.split` on a single separator character: the list of chunks
between occurrences of the separator; the empty string yields one empty
chunk, as in JS. -/
def splitOnChar (sep : Char) (cs : List Char) : List (List Char) :=
  cs.foldr
    (fun c acc =>
      match acc with
      | [] => [[c]]
      | cur :: rest => if c = sep then [] :: cur :: rest else (c :: cur) :: rest)
    [[]]

/-- JS `String.trim`: drop whitespace from both ends. -/
def jsTrim (cs : List Char) : List Char :=
  ((cs.dropWhile Char.isWhitespace).reverse.dropWhile Char.isWhitespace).reverse

/-- Genre extractor `pickPrimaryGenre` from `GenreYearHeatmap`: a falsy
input (absent or empty) gives "Unknown"; otherwise strip brackets and
quotes, split on commas, trim each part, drop empty parts (`filter
Boolean`), and return the first part, with "Unknown" when none remains
(`parts[0] ?? "Unknown"`). -/
def pickPrimaryGenre (raw : Option String) : String :=
  match raw with
  | none => "Unknown"
  | some s =>
    if s = "" then "Unknown"
    else
      let cleaned := stripGenreChars s
      let parts :=
        ((splitOnChar (Char.ofNat 44) cleaned.toList).map
          (fun p => String.mk (jsTrim p))).filter (fun t => decide (t ≠ ""))
      parts.headD "Unknown"

/-- The genre-extraction algorithm exactly as the specification words it:
strip the bracket and quote characters, split on commas, trim each part,
drop empty parts, and return the first remaining part, or "Unknown" when
the input was absent or yielded no parts. -/
def extractPrimaryGenreSpec (raw : Option String) : String :=
  match raw with
  | none => "Unknown"
  | some s =>
    let cleaned := stripGenreChars s
    let parts :=
      ((splitOnChar (Char.ofNat 44) cleaned.toList).map
        (fun p => String.mk (jsTrim p))).filter (fun t => decide (t ≠ ""))
    parts.headD "Unknown"

/-- The Python-list-like test input from the spec. -/
def exListSingle : String :=
  "[" ++ squote ++ "pop" ++ squote ++ ", " ++ squote ++ "dance pop" ++ squote ++ "]"

/-- The double-quoted-list-like test input from the spec. -/
def exListDouble : String :=
  "[" ++ dquote ++ "pop" ++ dquote ++ "," ++ dquote ++ "dance pop" ++ dquote ++ "]"

/-- C1: the genre extractor implements exactly the spec's algorithm
(strip brackets and quotes, split on commas, trim, drop empties, first
part or "Unknown"), and the five concrete examples of the spec hold. -/
theorem pickPrimaryGenre_spec :
    (∀ raw, pickPrimaryGenre raw = extractPrimaryGenreSpec raw) ∧
    pickPrimaryGenre (some exListSingle) = "pop" ∧
    pickPrimaryGenre (some exListDouble) = "pop" ∧
    pickPrimaryGenre (some "pop, dance pop") = "pop" ∧
    pickPrimaryGenre none = "Unknown" ∧
    pickPrimaryGenre (some "") = "Unknown" := by
  refine ⟨?_, by decide, by decide, by decide, rfl, by decide⟩
  intro raw
  match raw with
  | none => rfl
  | some s =>
    by_cases h : s = ""
    · subst h; decide
    · simp [pickPrimaryGenre, extractPrimaryGenreSpec, h]

/-- Duration bucket label from `LengthPopularityStream`. -/
def durationLabel (m : ℚ) : String :=
  if m < 2 then "0-2"
  else if m < 3 then "2-3"
  else if m < 4 then "3-4"
  else if m < 5 then "4-5"
  else "5+"

/-- Popularity band from `LengthPopularityStream`. -/
def popBand (p : ℚ) : String :=
  if p < 40 then "Low"
  else if p < 70 then "Medium"
  else "High"

/-- The fixed duration-bucket order of the stream chart. -/
def durations : List String := ["0-2", "2-3", "3-4", "4-5", "5+"]

/-- The fixed popularity-band order of the stream chart. -/
def bands : List String := ["Low", "Medium", "High"]

/-- C2: every track with a valid duration (in (0, 15)) and finite
popularity lands in exactly one of the 5 fixed duration buckets and
exactly one of the 3 fixed popularity bands, and the boundary cases of
the spec evaluate as claimed. -/
theorem durationLabel_popBand_total (m p : ℚ) (hm0 : 0 < m) (hm15 : m < 15) :
    (∃! l, durationLabel m = l ∧ l ∈ durations) ∧
    (∃! b, popBand p = b ∧ b ∈ bands) ∧
    durationLabel (1.9 : ℚ) = "0-2" ∧ durationLabel (2.0 : ℚ) = "2-3" ∧
    durationLabel (5.5 : ℚ) = "5+" ∧
    popBand (39.9 : ℚ) = "Low" ∧ popBand (40.0 : ℚ) = "Medium" ∧
    popBand (69.9 : ℚ) = "Medium" ∧ popBand (70.0 : ℚ) = "High" := by
  refine ⟨⟨durationLabel m, ⟨rfl, ?_⟩, fun y hy => hy.1.symm⟩,
    ⟨popBand p, ⟨rfl, ?_⟩, fun y hy => hy.1.symm⟩,
    by norm_num [durationLabel], by norm_num [durationLabel],
    by norm_num [durationLabel], by norm_num [popBand], by norm_num [popBand],
    by norm_num [popBand], by norm_num [popBand]⟩
  · unfold durationLabel; split_ifs <;> decide
  · unfold popBand; split_ifs <;> decide

/-- Witness for C2 at the concrete point m = 3, p = 50. -/
theorem durationLabel_popBand_total_witness :
    (0 : ℚ) < 3 ∧ (3 : ℚ) < 15 ∧
    ((∃! l, durationLabel 3 = l ∧ l ∈ durations) ∧
     (∃! b, popBand 50 = b ∧ b ∈ bands) ∧
     durationLabel (1.9 : ℚ) = "0-2" ∧ durationLabel (2.0 : ℚ) = "2-3" ∧
     durationLabel (5.5 : ℚ) = "5+" ∧
     popBand (39.9 : ℚ) = "Low" ∧ popBand (40.0 : ℚ) = "Medium" ∧
     popBand (69.9 : ℚ) = "Medium" ∧ popBand (70.0 : ℚ) = "High") :=
  ⟨by norm_num, by norm_num,
    durationLabel_popBand_total 3 50 (by norm_num) (by norm_num)⟩

/-- The bar-chart click handler from `TopArtistsBarChart`:
`onSelectArtist(d[0] === selectedArtist ? null : d[0])`. -/
def clickArtist (current : Option String) (a : String) : Option String :=
  if current = some a then none else some a

/-- C5 counterexample: from the state in which "A" is already selected,
clicking "A" twice ends with "A" selected, not with no selection, so the
"from any state" part of the toggle claim is false. -/
theorem clickArtist_twice_not_none :
    clickArtist (clickArtist (some "A") "A") "A" ≠ none := by decide

/-- C5 as amended: clicking an artist that is currently selected clears
the selection, clicking one that is not selects it, and hence two clicks
in a row return the selection to none from any state in which that artist
is not currently selected. -/
theorem clickArtist_toggle (s : Option String) (a : String) :
    (s = some a → clickArtist s a = none) ∧
    (s ≠ some a → clickArtist s a = some a) ∧
    (s ≠ some a → clickArtist (clickArtist s a) a = none) := by
  refine ⟨fun h => ?_, fun h => ?_, fun h => ?_⟩
  · simp [clickArtist, h]
  · simp [clickArtist, h]
  · simp [clickArtist, h]

/-- Witness for C5's amended toggle law at concrete states. -/
theorem clickArtist_toggle_witness :
    clickArtist (some "A") "A" = none ∧
    clickArtist none "A" = some "A" ∧
    clickArtist (clickArtist none "A") "A" = none :=
  ⟨(clickArtist_toggle (some "A") "A").1 rfl,
   (clickArtist_toggle none "A").2.1 (by decide),
   (clickArtist_toggle none "A").2.2 (by decide)⟩

/-- A raw CSV row as d3.csv delivers it: every column either absent or a
string. Only the columns the charts read are modelled. -/
structure RawRecord where
  artist_name : Option String := none
  artists : Option String := none
  artist_genres : Option String := none
  artist_popularity : Option String := none
  track_popularity : Option String := none
  popularity : Option String := none
  track_duration_min : Option String := none
  album_release_date : Option String := none
  release_date : Option String := none
deriving DecidableEq, Repr

/-- JS truthy-or on a possibly-absent string (`x || y`): an absent value
and the empty string are both falsy. -/
def strOr (x : Option String) (y : String) : String :=
  match x with
  | none => y
  | some s => if s = "" then y else s

/-- Value of a digit string, most significant first. -/
def digitsVal (cs : List Char) : ℕ :=
  cs.foldl (fun n c => 10 * n + (c.toNat - 48)) 0

/-- Whether every character is a decimal digit. -/
def allDigits (cs : List Char) : Bool :=
  cs.all (fun c => c.isDigit)

/-- JS `Number()` on a string, restricted to plain decimal literals: the
input is whitespace-trimmed, the empty string parses as 0, and an optional
sign followed by digits with at most one decimal point parses as the
denoted rational; anything else is NaN, modelled as `none`. (Exponent,
hex and Infinity forms do not occur in this pipeline.) -/
def jsNumber (s : String) : Option ℚ :=
  let t := String.mk (jsTrim s.toList)
  if t = "" then some 0
  else
    let sgn : ℤ := if t.toList.headD ' ' = '-' then -1 else 1
    let body :=
      if t.toList.headD ' ' = '-' ∨ t.toList.headD ' ' = '+' then t.toList.tail
      else t.toList
    match splitOnChar '.' body with
    | [ip] =>
      if ip ≠ [] ∧ allDigits ip then some (mkRat (sgn * digitsVal ip) 1)
      else none
    | [ip, fp] =>
      if (ip ≠ [] ∨ fp ≠ []) ∧ allDigits ip ∧ allDigits fp then
        some (mkRat (sgn * (digitsVal ip * 10 ^ fp.length + digitsVal fp))
          (10 ^ fp.length))
      else none
    | _ => none

/-- JS unary plus on a possibly-absent string: `+undefined` is NaN. -/
def jsNumberOpt (x : Option String) : Option ℚ :=
  match x with
  | none => none
  | some s => jsNumber s

/-- Stream-chart source filter from `LengthPopularityStream`: when the
selected artist is truthy (non-null and non-empty), keep the rows whose
`artist_name || ""` equals it; otherwise pass all rows through. -/
def filteredData (selectedArtist : Option String) (data : List RawRecord) :
    List RawRecord :=
  match selectedArtist with
  | none => data
  | some a =>
    if a = "" then data
    else data.filter (fun d => decide (strOr d.artist_name "" = a))

/-- A row whose artist_name column holds "B". -/
def rB : RawRecord := { artist_name := some "B" }

/-- C6 counterexample: with the selected artist being the empty string
(a non-none selection), the code passes every row through because the
empty string is falsy in JS, instead of keeping exactly the rows whose
artist name equals the selection. -/
theorem filteredData_empty_string_counterexample :
    filteredData (some "") [rB] ≠
      [rB].filter (fun d => decide (strOr d.artist_name "" = "")) := by decide

/-- C6 as amended: when the selected artist is non-none and non-empty the
stream chart keeps exactly the rows whose artist_name (absent read as "")
string-equals it, and when the selection is none or the empty string all
rows pass through unfiltered. -/
theorem filteredData_spec (a : String) (data : List RawRecord) (h : a ≠ "") :
    (∀ d, d ∈ filteredData (some a) data ↔
      d ∈ data ∧ strOr d.artist_name "" = a) ∧
    filteredData none data = data ∧
    filteredData (some "") data = data := by
  refine ⟨fun d => ?_, rfl, by simp [filteredData]⟩
  simp [filteredData, h, List.mem_filter]

/-- Witness for C6's amended filter law at a concrete selection and row. -/
theorem filteredData_spec_witness :
    ("A" : String) ≠ "" ∧
    (rB ∈ filteredData (some "A") [rB] ↔
      rB ∈ [rB] ∧ strOr rB.artist_name "" = "A") ∧
    filteredData none [rB] = [rB] :=
  ⟨by decide, (filteredData_spec "A" [rB] (by decide)).1 rB,
   (filteredData_spec "A" [rB] (by decide)).2.1⟩

/-- First-seen-order list of the distinct elements of a list, as a JS
`Map` (used by `d3.rollups` and `new Set`) collects keys in insertion
order. -/
def firstSeenKeys {α : Type} [DecidableEq α] (l : List α) : List α :=
  l.foldl (fun acc k => if k ∈ acc then acc else acc ++ [k]) []

theorem mem_foldl_firstSeen {α : Type} [DecidableEq α] (l : List α)
    (acc : List α) (x : α) :
    (x ∈ l.foldl (fun acc k => if k ∈ acc then acc else acc ++ [k]) acc) ↔
      x ∈ acc ∨ x ∈ l := by
  induction l generalizing acc with
  | nil => simp
  | cons k l ih =>
    simp only [List.foldl_cons, ih]
    by_cases hk : k ∈ acc
    · simp only [if_pos hk, List.mem_cons]
      constructor
      · rintro (h | h)
        · exact Or.inl h
        · exact Or.inr (Or.inr h)
      · rintro (h | h | h)
        · exact Or.inl h
        · exact Or.inl (h ▸ hk)
        · exact Or.inr h
    · simp only [if_neg hk, List.mem_append, List.mem_singleton, List.mem_cons]
      tauto

theorem mem_firstSeenKeys {α : Type} [DecidableEq α] (l : List α) (x : α) :
    x ∈ firstSeenKeys l ↔ x ∈ l := by
  unfold firstSeenKeys
  rw [mem_foldl_firstSeen]
  simp

theorem nodup_foldl_firstSeen {α : Type} [DecidableEq α] (l : List α)
    (acc : List α) (h : acc.Nodup) :
    (l.foldl (fun acc k => if k ∈ acc then acc else acc ++ [k]) acc).Nodup := by
  induction l generalizing acc with
  | nil => simpa using h
  | cons k l ih =>
    simp only [List.foldl_cons]
    by_cases hk : k ∈ acc
    · rw [if_pos hk]; exact ih acc h
    · rw [if_neg hk]
      refine ih _ ?_
      simp [List.nodup_append, h, hk]

theorem nodup_firstSeenKeys {α : Type} [DecidableEq α] (l : List α) :
    (firstSeenKeys l).Nodup :=
  nodup_foldl_firstSeen l [] List.nodup_nil

/-- d3.rollups with a single key function: pairs each first-seen key with
the reducer applied to the list of members having that key, in encounter
order. -/
def rollupsBy {α β κ : Type} [DecidableEq κ] (l : List α) (red : List α → β)
    (key : α → κ) : List (κ × β) :=
  (firstSeenKeys (l.map key)).map
    (fun k => (k, red (l.filter (fun a => decide (key a = k)))))

theorem fst_map_rollupsBy {α β κ : Type} [DecidableEq κ] (l : List α)
    (red : List α → β) (key : α → κ) :
    (rollupsBy l red key).map Prod.fst = firstSeenKeys (l.map key) := by
  unfold rollupsBy
  rw [List.map_map]
  exact List.map_id _

theorem mem_rollupsBy {α β κ : Type} [DecidableEq κ] (l : List α)
    (red : List α → β) (key : α → κ) (p : κ × β) :
    p ∈ rollupsBy l red key ↔
      (∃ a ∈ l, key a = p.1) ∧
        p.2 = red (l.filter (fun a => decide (key a = p.1))) := by
  unfold rollupsBy
  rw [List.mem_map]
  constructor
  · rintro ⟨k, hk, rfl⟩
    rw [mem_firstSeenKeys, List.mem_map] at hk
    obtain ⟨a, ha, rfl⟩ := hk
    exact ⟨⟨a, ha, rfl⟩, rfl⟩
  · rintro ⟨⟨a, ha, hk⟩, hv⟩
    refine ⟨p.1, ?_, ?_⟩
    · rw [mem_firstSeenKeys, List.mem_map]; exact ⟨a, ha, hk⟩
    · exact Prod.ext rfl hv.symm

/-- A cleaned bar-chart row: artist label, parsed track popularity, the
raw genre field, and the parsed artist popularity (kept even when NaN). -/
structure CRow where
  artist : String
  pop : ℚ
  genre : String
  artistPopularity : Option ℚ
deriving DecidableEq, Repr

/-- The clean + extract stage of `TopArtistsBarChart`: artist is
`artist_name || artists || ""`, popularity is `+(track_popularity ??
popularity)`, genre is the raw `artist_genres || "Unknown"` string, and
artistPopularity is `+(artist_popularity ?? 0)`; a row is dropped when its
artist label is falsy or its popularity is NaN. -/
def cleanedRow (d : RawRecord) : Option CRow :=
  match jsNumberOpt (d.track_popularity.orElse (fun _ => d.popularity)) with
  | none => none
  | some p =>
    let artist := strOr d.artist_name (strOr d.artists "")
    if artist = "" then none
    else some
      { artist := artist
        pop := p
        genre := strOr d.artist_genres "Unknown"
        artistPopularity :=
          match d.artist_popularity with
          | none => some 0
          | some s => jsNumber s }

/-- The cleaned row list of the bar chart. -/
def cleaned (data : List RawRecord) : List CRow := data.filterMap cleanedRow

/-- A per-artist aggregate of the bar chart. -/
structure ArtistAgg where
  avgPop : ℚ
  genre : String
  artistPopularity : Option ℚ
  trackCount : ℕ
deriving DecidableEq, Repr

/-- The per-artist reducer of `TopArtistsBarChart`: mean track popularity
(`d3.mean(v) ?? 0`, hence 0 on an empty group), the first member's raw
genre field and artist popularity, and the group size. The group-by only
produces non-empty groups (proved below), so the defaults used here for
the first-member fields of an empty group are never exercised. -/
def artistReducer (v : List CRow) : ArtistAgg :=
  { avgPop := if v.length = 0 then 0 else (v.map (fun r => r.pop)).sum / v.length
    genre := (v.head?.map (fun r => r.genre)).getD "Unknown"
    artistPopularity := (v.head?.map (fun r => r.artistPopularity)).getD none
    trackCount := v.length }

/-- Per-artist aggregation of the bar chart. -/
def grouped (data : List RawRecord) : List (String × ArtistAgg) :=
  rollupsBy (cleaned data) artistReducer (fun r => r.artist)

/-- Minimum-support threshold of the bar-chart selector. -/
def minTracks : ℕ := 5

/-- The JS sort comparator `(a, b) => b.avgPop - a.avgPop` read as the
relation "a may precede b": b's mean does not exceed a's. -/
def byAvgPopDesc (a b : String × ArtistAgg) : Prop :=
  b.2.avgPop ≤ a.2.avgPop

instance instDecByAvgPopDesc : DecidableRel byAvgPopDesc :=
  fun a b => inferInstanceAs (Decidable (b.2.avgPop ≤ a.2.avgPop))

instance instTotalByAvgPopDesc : IsTotal (String × ArtistAgg) byAvgPopDesc :=
  ⟨fun a b => le_total b.2.avgPop a.2.avgPop⟩

instance instTransByAvgPopDesc : IsTrans (String × ArtistAgg) byAvgPopDesc :=
  ⟨fun _ _ _ hab hbc => le_trans hbc hab⟩

/-- Bar-chart selector from `TopArtistsBarChart`: keep the groups with at
least `minTracks` tracks, sort by mean popularity descending (JS
Array.sort is stable, modelled by the stable insertion sort), and take the
first 10. -/
def top10 (g : List (String × ArtistAgg)) : List (String × ArtistAgg) :=
  ((g.filter (fun d => decide (minTracks ≤ d.2.trackCount))).insertionSort
    byAvgPopDesc).take 10

/-- C3: the bar-chart selector keeps only groups with at least 5 tracks,
returns at most 10 of them sorted by mean popularity descending, breaks
ties by first-seen order (its tie classes are sublists of the surviving
groups in input order), returns exactly 10 when 15 groups all have at
least 5 tracks, and returns the empty list when every group has fewer
than 5 tracks. -/
theorem top10_spec (g : List (String × ArtistAgg)) :
    (∀ d ∈ top10 g, minTracks ≤ d.2.trackCount) ∧
    (top10 g).length ≤ 10 ∧
    (top10 g).Pairwise byAvgPopDesc ∧
    (∀ q : ℚ, List.Sublist
      ((top10 g).filter (fun d => decide (d.2.avgPop = q)))
      ((g.filter (fun d => decide (minTracks ≤ d.2.trackCount))).filter
        (fun d => decide (d.2.avgPop = q)))) ∧
    ((∀ d ∈ g, minTracks ≤ d.2.trackCount) → g.length = 15 →
      (top10 g).length = 10) ∧
    ((∀ d ∈ g, d.2.trackCount < minTracks) → top10 g = []) := by
  set survivors := g.filter (fun d => decide (minTracks ≤ d.2.trackCount)) with hs
  have hsorted : (survivors.insertionSort byAvgPopDesc).Pairwise byAvgPopDesc :=
    List.sorted_insertionSort byAvgPopDesc survivors
  have htake : List.Sublist (top10 g) (survivors.insertionSort byAvgPopDesc) :=
    List.take_sublist 10 _
  refine ⟨?_, ?_, ?_, ?_, ?_, ?_⟩
  · intro d hd
    have hmem : d ∈ survivors.insertionSort byAvgPopDesc := htake.subset hd
    rw [List.mem_insertionSort] at hmem
    rw [hs, List.mem_filter] at hmem
    simpa using hmem.2
  · calc (top10 g).length = min 10 (survivors.insertionSort byAvgPopDesc).length :=
          List.length_take _ _
      _ ≤ 10 := min_le_left _ _
  · exact hsorted.sublist htake
  · intro q
    set p : String × ArtistAgg → Bool := fun d => decide (d.2.avgPop = q) with hp
    have hties : (survivors.filter p).Pairwise byAvgPopDesc := by
      refine List.pairwise_of_forall_mem_list ?_
      intro a ha b hb
      rw [List.mem_filter] at ha hb
      have ha2 := of_decide_eq_true ha.2
      have hb2 := of_decide_eq_true hb.2
      unfold byAvgPopDesc
      rw [ha2, hb2]
    have hsub : List.Sublist (survivors.filter p)
        (survivors.insertionSort byAvgPopDesc) :=
      List.sublist_insertionSort hties (List.filter_sublist survivors)
    have heq : (survivors.insertionSort byAvgPopDesc).filter p =
        survivors.filter p := by
      have h1 : List.Sublist ((survivors.filter p).filter p)
          ((survivors.insertionSort byAvgPopDesc).filter p) := hsub.filter p
      rw [List.filter_filter] at h1
      have h2 : List.Perm ((survivors.insertionSort byAvgPopDesc).filter p)
          (survivors.filter p) :=
        (List.perm_insertionSort byAvgPopDesc survivors).filter p
      have h3 : survivors.filter (fun a => p a && p a) = survivors.filter p := by
        congr 1
        funext a
        cases p a <;> rfl
      rw [h3] at h1
      exact (h1.eq_of_length h2.length_eq.symm).symm
    have hfin : List.Sublist ((top10 g).filter p)
        ((survivors.insertionSort byAvgPopDesc).filter p) := htake.filter p
    rw [heq] at hfin
    exact hfin
  · intro hall hlen
    have hsurv : survivors = g := by
      rw [hs]
      refine List.filter_eq_self.mpr ?_
      intro a ha
      exact decide_eq_true (hall a ha)
    rw [top10, ← hs, List.length_take, List.length_insertionSort, hsurv, hlen]
    rfl
  · intro hall
    have hsurv : survivors = [] := by
      rw [hs]
      refine List.filter_eq_nil_iff.mpr ?_
      intro a ha
      simp only [decide_eq_true_eq]
      exact Nat.not_le.mpr (hall a ha)
    rw [top10, ← hs, hsurv]
    rfl

/-- Fifteen groups, each with exactly `minTracks` tracks. -/
def g15 : List (String × ArtistAgg) :=
  List.replicate 15 ("a", ⟨50, "pop", none, 5⟩)

/-- The support-boundary scenario of the spec: artist X aggregated from 3
rows and artist Y from 2 rows, both below the minimum support of 5. -/
def gSmall : List (String × ArtistAgg) :=
  [("X", ⟨80, "pop", none, 3⟩), ("Y", ⟨60, "rock", none, 2⟩)]

/-- Witness for C3 at the spec's two concrete scenarios. -/
theorem top10_spec_witness :
    (∀ d ∈ g15, minTracks ≤ d.2.trackCount) ∧ g15.length = 15 ∧
    (top10 g15).length = 10 ∧
    (∀ d ∈ gSmall, d.2.trackCount < minTracks) ∧ top10 gSmall = [] :=
  ⟨by decide, by decide, (top10_spec g15).2.2.2.2.1 (by decide) (by decide),
   by decide, (top10_spec gSmall).2.2.2.2.2 (by decide)⟩

/-- A raw row whose genre column holds a quoted list, whose artist_name
is "A" and whose track popularity is "50". -/
def rGenreList : RawRecord :=
  { artist_name := some "A", track_popularity := some "50",
    artist_genres := some exListDouble }

/-- C7 counterexample: the by-artist reducer stores the first member's raw
artist_genres string, not the extracted primary genre: on a row whose
genre column is the quoted list, the aggregate's genre field is the whole
list string although the genre extractor yields "pop". -/
theorem grouped_genre_raw_counterexample :
    (grouped [rGenreList]).map (fun d => d.2.genre) = [exListDouble] ∧
    pickPrimaryGenre (some exListDouble) = "pop" ∧
    exListDouble ≠ "pop" := by
  refine ⟨by decide, by decide, by decide⟩

/-- C7 as amended: for every group produced by the by-artist aggregation,
the reducer returns the arithmetic mean of the group's popularities, the
raw genre field (artist_genres with "Unknown" fallback, not passed through
the genre extractor) and the artistPopularity of the first-encountered
member, and the group size; and every group is non-empty, so the
empty-group branch of the mean never fires. -/
theorem grouped_reducer_spec (data : List RawRecord) (p : String × ArtistAgg)
    (hp : p ∈ grouped data) :
    ∃ hd tl,
      (cleaned data).filter (fun r => decide (r.artist = p.1)) = hd :: tl ∧
      p.2.trackCount = (hd :: tl).length ∧
      p.2.avgPop = ((hd :: tl).map (fun r => r.pop)).sum / (hd :: tl).length ∧
      p.2.genre = hd.genre ∧
      p.2.artistPopularity = hd.artistPopularity := by
  rw [grouped, mem_rollupsBy] at hp
  obtain ⟨⟨a, ha, hk⟩, hv⟩ := hp
  have hmem : a ∈ (cleaned data).filter (fun r => decide (r.artist = p.1)) := by
    rw [List.mem_filter]
    exact ⟨ha, decide_eq_true hk⟩
  obtain ⟨hd, tl, hcons⟩ : ∃ hd tl,
      (cleaned data).filter (fun r => decide (r.artist = p.1)) = hd :: tl := by
    cases hfil : (cleaned data).filter (fun r => decide (r.artist = p.1)) with
    | nil => rw [hfil] at hmem; cases hmem
    | cons hd tl => exact ⟨hd, tl, rfl⟩
  refine ⟨hd, tl, hcons, ?_, ?_, ?_, ?_⟩ <;>
    rw [hv, hcons] <;>
    first
    | rfl
    | simp [artistReducer]

/-- The aggregate the bar chart produces for the C7 counterexample row:
the reducer applied to the single group of artist "A". -/
def c7pair : String × ArtistAgg :=
  ("A", artistReducer
    ((cleaned [rGenreList]).filter (fun r => decide (r.artist = "A"))))

/-- Witness for C7's amended reducer law at the concrete one-row dataset. -/
theorem grouped_reducer_spec_witness :
    c7pair ∈ grouped [rGenreList] ∧
    ∃ hd tl,
      (cleaned [rGenreList]).filter (fun r => decide (r.artist = c7pair.1)) =
        hd :: tl ∧
      c7pair.2.trackCount = (hd :: tl).length ∧
      c7pair.2.avgPop = ((hd :: tl).map (fun r => r.pop)).sum / (hd :: tl).length ∧
      c7pair.2.genre = hd.genre ∧
      c7pair.2.artistPopularity = hd.artistPopularity := by
  have hmem : c7pair ∈ grouped [rGenreList] := by
    rw [show grouped [rGenreList] = [c7pair] from rfl]
    exact List.mem_singleton_self c7pair
  exact ⟨hmem, grouped_reducer_spec [rGenreList] c7pair hmem⟩

theorem strOr_eq_of_falsy (x : Option String) (y : String)
    (h : strOr x "" = "") : strOr x y = y := by
  cases x with
  | none => rfl
  | some s =>
    by_cases hs : s = ""
    · simp [strOr, hs]
    · simp [strOr, hs] at h

/-- C10: a row whose artist label comes only from the artists column
(artist_name absent or empty) and which survives cleaning contributes to
the bar chart's per-artist aggregation under the fallback name, yet fails
the stream chart's artist_name-only filter for that name; and when no row
of the dataset carries the selected name in artist_name, the stream
chart's filtered source is empty. -/
theorem fallback_artist_mismatch (d : RawRecord) (data : List RawRecord)
    (a : String)
    (hname : strOr d.artist_name "" = "")
    (hfb : strOr d.artists "" = a)
    (ha : a ≠ "")
    (hd : d ∈ data)
    (hpop : jsNumberOpt (d.track_popularity.orElse (fun _ => d.popularity)) ≠
      none) :
    strOr d.artist_name (strOr d.artists "") = a ∧
    (∃ agg, (a, agg) ∈ grouped data) ∧
    d ∉ filteredData (some a) data ∧
    ((∀ r ∈ data, strOr r.artist_name "" ≠ a) →
      filteredData (some a) data = []) := by
  have hlabel : strOr d.artist_name (strOr d.artists "") = a := by
    rw [strOr_eq_of_falsy d.artist_name _ hname, hfb]
  refine ⟨hlabel, ?_, ?_, ?_⟩
  · obtain ⟨p, hp⟩ := Option.ne_none_iff_exists'.mp hpop
    have hc : cleanedRow d = some
        { artist := a
          pop := p
          genre := strOr d.artist_genres "Unknown"
          artistPopularity :=
            match d.artist_popularity with
            | none => some 0
            | some s => jsNumber s } := by
      rw [cleanedRow, hp]
      simp only [hlabel, if_neg ha]
    refine ⟨artistReducer ((cleaned data).filter
      (fun r => decide (r.artist = a))), ?_⟩
    rw [grouped, mem_rollupsBy]
    exact ⟨⟨{ artist := a
              pop := p
              genre := strOr d.artist_genres "Unknown"
              artistPopularity :=
                match d.artist_popularity with
                | none => some 0
                | some s => jsNumber s },
      List.mem_filterMap.mpr ⟨d, hd, hc⟩, rfl⟩, rfl⟩
  · intro hmem
    rw [filteredData, if_neg ha, List.mem_filter] at hmem
    have := of_decide_eq_true hmem.2
    rw [hname] at this
    exact ha this.symm
  · intro hall
    rw [filteredData, if_neg ha]
    refine List.filter_eq_nil_iff.mpr ?_
    intro r hr
    simp only [decide_eq_true_eq]
    exact hall r hr

/-- A raw row with no artist_name, artists "B" and track popularity "7". -/
def rFallback : RawRecord :=
  { artists := some "B", track_popularity := some "7" }

/-- Witness for C10 at the concrete one-row dataset. -/
theorem fallback_artist_mismatch_witness :
    strOr rFallback.artist_name (strOr rFallback.artists "") = "B" ∧
    (∃ agg, ("B", agg) ∈ grouped [rFallback]) ∧
    rFallback ∉ filteredData (some "B") [rFallback] ∧
    ((∀ r ∈ [rFallback], strOr r.artist_name "" ≠ "B") →
      filteredData (some "B") [rFallback] = []) :=
  fallback_artist_mismatch rFallback [rFallback] "B" (by decide) (by decide)
    (by decide) (by decide) (by decide)

/-- A validated heatmap row (the `Row` type of `GenreYearHeatmap`):
release year, primary genre, track popularity. -/
structure Row where
  year : ℤ
  genre : String
  pop : ℚ
deriving DecidableEq, Repr

/-- Lower bound of the valid year range. -/
def MIN_YEAR : ℤ := 1950

/-- Upper bound of the valid year range. -/
def MAX_YEAR : ℤ := 2026

/-- Number of genres the heatmap keeps. -/
def TOP_GENRES : ℕ := 12

/-- The JS sort comparator `(a, b) => b[1] - a[1]` on (genre, count) pairs
read as the relation "a may precede b": b's count does not exceed a's. -/
def byCountDesc (a b : String × ℕ) : Prop :=
  b.2 ≤ a.2

instance instDecByCountDesc : DecidableRel byCountDesc :=
  fun a b => inferInstanceAs (Decidable (b.2 ≤ a.2))

instance instTotalByCountDesc : IsTotal (String × ℕ) byCountDesc :=
  ⟨fun a b => Nat.le_total b.2 a.2⟩

instance instTransByCountDesc : IsTrans (String × ℕ) byCountDesc :=
  ⟨fun _ _ _ hab hbc => le_trans hbc hab⟩

/-- Genre histogram of the heatmap: first-seen rollups of the rows by
genre with count, sorted by count descending (JS Array.sort is stable,
modelled by the stable insertion sort). -/
def genreCounts (rows : List Row) : List (String × ℕ) :=
  (rollupsBy rows (fun v => v.length) (fun r => r.genre)).insertionSort
    byCountDesc

/-- The heatmap's selected genres: the top `TOP_GENRES` by count. -/
def topGenresOf (rows : List Row) : List String :=
  ((genreCounts rows).take TOP_GENRES).map Prod.fst

/-- Rows restricted to the selected genres. -/
def filteredRows (rows : List Row) : List Row :=
  rows.filter (fun r => decide (r.genre ∈ topGenresOf rows))

/-- The observed year domain: the distinct years of the filtered rows
(`new Set`, insertion order) sorted ascending. -/
def observedYears (rows : List Row) : List ℤ :=
  (firstSeenKeys ((filteredRows rows).map (fun r => r.year))).insertionSort
    (· ≤ ·)

/-- The heatmap's valueMap lookup at (year, genre): the mean popularity of
the matching filtered rows, or none when no such row exists (the JS Map
holds no entry for that key and `Map.get` returns undefined). -/
def cellValue (rows : List Row) (yr : ℤ) (g : String) : Option ℚ :=
  let grp := (filteredRows rows).filter
    (fun r => decide (r.year = yr ∧ r.genre = g))
  if grp.length = 0 then none
  else some ((grp.map (fun r => r.pop)).sum / grp.length)

/-- A cell of the dense heatmap grid. -/
structure GridCell where
  year : ℤ
  genre : String
  value : Option ℚ
deriving DecidableEq, Repr

/-- The dense heatmap grid: for each observed year (in order), one cell
per selected genre (in order). -/
def gridOf (rows : List Row) : List GridCell :=
  (observedYears rows).flatMap (fun yr =>
    (topGenresOf rows).map (fun g => ⟨yr, g, cellValue rows yr g⟩))

/-- Initial value of the revealed-year state: `useState(MIN_YEAR)`. -/
def initialCurrentYear : ℤ := MIN_YEAR

/-- The minimum year of the observed year domain of a dataset. -/
def minObservedYear (rows : List Row) : Option ℤ :=
  (observedYears rows).min?

/-- A dataset whose observed years are 2000 and 2001. -/
def rows2000 : List Row :=
  [⟨2000, "pop", 50⟩, ⟨2001, "pop", 60⟩]

/-- C8 counterexample: on a dataset whose minimum observed year is 2000,
the revealed-year state is still initialized to the constant 1950, not to
the dataset's minimum observed year. -/
theorem initialCurrentYear_counterexample :
    minObservedYear rows2000 = some 2000 ∧
    some initialCurrentYear ≠ minObservedYear rows2000 := by
  refine ⟨by decide, by decide⟩

/-- C8 as amended: the revealed-year state is initialized to the fixed
constant MIN_YEAR = 1950, the lower bound of the valid year range, for
every dataset, independently of the observed years. -/
theorem initialCurrentYear_const (rows : List Row) :
    initialCurrentYear = MIN_YEAR ∧ initialCurrentYear = 1950 :=
  ⟨rfl, rfl⟩

/-- JS `Math.round`: the integer nearest to x, halves rounding up. -/
def jsRound (q : ℚ) : ℤ := Int.floor (q + 1 / 2)

/-- The drag handler's clamped index:
`Math.max(0, Math.min(years.length - 1, Math.round((xPos - left) / step)))`. -/
def dragIndex (len : ℕ) (xPos marginLeft step : ℚ) : ℤ :=
  max 0 (min ((len : ℤ) - 1) (jsRound ((xPos - marginLeft) / step)))

/-- The drag handler's new revealed year: `years[idx]`. -/
def dragYear (years : List ℤ) (xPos marginLeft step : ℚ) : Option ℤ :=
  years[(dragIndex years.length xPos marginLeft step).toNat]?

theorem min?_le_of_mem (l : List ℤ) : ∀ m a : ℤ, l.min? = some m → a ∈ l →
    m ≤ a := by
  induction l with
  | nil => intro m a _ ha; cases ha
  | cons x xs ih =>
    intro m a hm ha
    rw [List.min?_cons] at hm
    injection hm with hm
    subst hm
    rcases List.mem_cons.mp ha with rfl | ha2
    · cases hxs : xs.min? with
      | none => simp [hxs]
      | some m2 =>
        simp only [hxs, Option.elim]
        exact min_le_left a m2
    · cases hxs : xs.min? with
      | none =>
        rw [List.min?_eq_none_iff] at hxs
        subst hxs
        cases ha2
      | some m2 =>
        simp only [hxs, Option.elim]
        exact le_trans (min_le_right x m2) (ih m2 a hxs ha2)

theorem le_max?_of_mem (l : List ℤ) : ∀ m a : ℤ, l.max? = some m → a ∈ l →
    a ≤ m := by
  induction l with
  | nil => intro m a _ ha; cases ha
  | cons x xs ih =>
    intro m a hm ha
    rw [List.max?_cons] at hm
    injection hm with hm
    subst hm
    rcases List.mem_cons.mp ha with rfl | ha2
    · cases hxs : xs.max? with
      | none => simp [hxs]
      | some m2 =>
        simp only [hxs, Option.elim]
        exact le_max_left a m2
    · cases hxs : xs.max? with
      | none =>
        rw [List.max?_eq_none_iff] at hxs
        subst hxs
        cases ha2
      | some m2 =>
        simp only [hxs, Option.elim]
        exact le_trans (ih m2 a hxs ha2) (le_max_right x m2)

/-- C9: for every horizontal drag position and every non-empty observed
year list, the handler's index is clamped into [0, length - 1], the array
access is in bounds, and the new revealed year is an element of the
observed years, between their minimum and maximum. -/
theorem dragYear_safe (years : List ℤ) (xPos marginLeft step : ℚ)
    (h : years ≠ []) :
    0 ≤ dragIndex years.length xPos marginLeft step ∧
    dragIndex years.length xPos marginLeft step < (years.length : ℤ) ∧
    ∃ y lo hi, dragYear years xPos marginLeft step = some y ∧ y ∈ years ∧
      years.min? = some lo ∧ years.max? = some hi ∧ lo ≤ y ∧ y ≤ hi := by
  have hlen : 0 < years.length := List.length_pos.mpr h
  have h0 : 0 ≤ dragIndex years.length xPos marginLeft step :=
    le_max_left 0 _
  have h1 : dragIndex years.length xPos marginLeft step <
      (years.length : ℤ) := by
    rw [dragIndex]
    have hmin : min ((years.length : ℤ) - 1)
        (jsRound ((xPos - marginLeft) / step)) ≤ (years.length : ℤ) - 1 :=
      min_le_left _ _
    have : (0 : ℤ) ≤ (years.length : ℤ) - 1 := by
      omega
    omega
  have hidx : (dragIndex years.length xPos marginLeft step).toNat <
      years.length := by
    omega
  obtain ⟨lo, hlo⟩ : ∃ lo, years.min? = some lo := by
    cases hm : years.min? with
    | none => exact absurd (List.min?_eq_none_iff.mp hm) h
    | some lo => exact ⟨lo, rfl⟩
  obtain ⟨hi, hhi⟩ : ∃ hi, years.max? = some hi := by
    cases hm : years.max? with
    | none => exact absurd (List.max?_eq_none_iff.mp hm) h
    | some hi => exact ⟨hi, rfl⟩
  refine ⟨h0, h1, years[(dragIndex years.length xPos marginLeft step).toNat],
    lo, hi, ?_, ?_, hlo, hhi, ?_, ?_⟩
  · exact List.getElem?_eq_getElem hidx
  · exact List.getElem_mem hidx
  · exact min?_le_of_mem years lo _ hlo (List.getElem_mem hidx)
  · exact le_max?_of_mem years hi _ hhi (List.getElem_mem hidx)

/-- Witness for C9 at a concrete year list and drag position. -/
theorem dragYear_safe_witness :
    ([2000, 2005] : List ℤ) ≠ [] ∧
    (0 ≤ dragIndex ([2000, 2005] : List ℤ).length 300 160 100 ∧
     dragIndex ([2000, 2005] : List ℤ).length 300 160 100 <
       (([2000, 2005] : List ℤ).length : ℤ) ∧
     ∃ y lo hi, dragYear ([2000, 2005] : List ℤ) 300 160 100 = some y ∧
       y ∈ ([2000, 2005] : List ℤ) ∧
       ([2000, 2005] : List ℤ).min? = some lo ∧
       ([2000, 2005] : List ℤ).max? = some hi ∧ lo ≤ y ∧ y ≤ hi) :=
  ⟨by decide, dragYear_safe [2000, 2005] 300 160 100 (by decide)⟩

theorem topGenresOf_nodup (rows : List Row) : (topGenresOf rows).Nodup := by
  have h1 : ((rollupsBy rows (fun v => v.length) (fun r => r.genre)).map
      Prod.fst).Nodup := by
    rw [fst_map_rollupsBy]
    exact nodup_firstSeenKeys _
  have hperm : List.Perm (genreCounts rows)
      (rollupsBy rows (fun v => v.length) (fun r => r.genre)) :=
    List.perm_insertionSort byCountDesc _
  have h2 : ((genreCounts rows).map Prod.fst).Nodup :=
    (hperm.map Prod.fst).nodup_iff.mpr h1
  have h3 : List.Sublist (((genreCounts rows).take TOP_GENRES).map Prod.fst)
      ((genreCounts rows).map Prod.fst) :=
    (List.take_sublist _ _).map Prod.fst
  exact h2.sublist h3

theorem observedYears_nodup (rows : List Row) : (observedYears rows).Nodup :=
  (List.perm_insertionSort _ _).nodup_iff.mpr (nodup_firstSeenKeys _)

theorem observedYears_sorted (rows : List Row) :
    (observedYears rows).Pairwise (fun a b : ℤ => a ≤ b) :=
  List.sorted_insertionSort _ _

/-- C4: the heatmap grid is the dense cartesian product of the observed
years and the selected genres: its length is the product of the two
domain sizes, its (year, genre) projection is exactly the product list
(years ascending, genres in selected order within each year) with no
duplicate pair and every pair present, each cell carries the valueMap
lookup for its pair, and a pair with no matching filtered row is present
with an undefined (none) value rather than omitted. -/
theorem grid_dense (rows : List Row) :
    (gridOf rows).length =
      (observedYears rows).length * (topGenresOf rows).length ∧
    (gridOf rows).map (fun c => (c.year, c.genre)) =
      (observedYears rows) ×ˢ (topGenresOf rows) ∧
    ((gridOf rows).map (fun c => (c.year, c.genre))).Nodup ∧
    (∀ y ∈ observedYears rows, ∀ g ∈ topGenresOf rows,
      ∃ c ∈ gridOf rows, c.year = y ∧ c.genre = g) ∧
    (∀ c ∈ gridOf rows, c.value = cellValue rows c.year c.genre) ∧
    (∀ c ∈ gridOf rows,
      (filteredRows rows).filter
        (fun r => decide (r.year = c.year ∧ r.genre = c.genre)) = [] →
      c.value = none) ∧
    (observedYears rows).Pairwise (fun a b => a ≤ b) := by
  have hpairs : (gridOf rows).map (fun c => (c.year, c.genre)) =
      (observedYears rows) ×ˢ (topGenresOf rows) := by
    simp only [gridOf, List.map_flatMap, List.map_map]
    rfl
  have hmem : ∀ c ∈ gridOf rows, ∃ yr g, yr ∈ observedYears rows ∧
      g ∈ topGenresOf rows ∧ c = ⟨yr, g, cellValue rows yr g⟩ := by
    intro c hc
    rw [gridOf, List.mem_flatMap] at hc
    obtain ⟨yr, hyr, hc⟩ := hc
    rw [List.mem_map] at hc
    obtain ⟨g, hg, rfl⟩ := hc
    exact ⟨yr, g, hyr, hg, rfl⟩
  have hval : ∀ c ∈ gridOf rows, c.value = cellValue rows c.year c.genre := by
    intro c hc
    obtain ⟨yr, g, _, _, rfl⟩ := hmem c hc
    rfl
  refine ⟨?_, hpairs, ?_, ?_, hval, ?_, observedYears_sorted rows⟩
  · have hlen := congrArg List.length hpairs
    rw [List.length_map, List.length_product] at hlen
    exact hlen
  · rw [hpairs]
    exact (observedYears_nodup rows).product (topGenresOf_nodup rows)
  · intro y hy g hg
    have hp : (y, g) ∈ (observedYears rows) ×ˢ (topGenresOf rows) :=
      List.mem_product.mpr ⟨hy, hg⟩
    rw [← hpairs, List.mem_map] at hp
    obtain ⟨c, hc, hcp⟩ := hp
    refine ⟨c, hc, ?_, ?_⟩
    · exact congrArg Prod.fst hcp
    · exact congrArg Prod.snd hcp
  · intro c hc hfil
    rw [hval c hc]
    simp only [cellValue]
    rw [hfil]
    rfl

/-- A dataset with years 2000 and 2003 and genres pop and rock, with no
rock row in 2003. -/
def rowsW : List Row :=
  [⟨2000, "pop", 50⟩, ⟨2000, "rock", 60⟩, ⟨2003, "pop", 70⟩]

/-- Witness for C4's dense-grid law at a concrete dataset. -/
theorem grid_dense_witness :
    (2003 : ℤ) ∈ observedYears rowsW ∧ "rock" ∈ topGenresOf rowsW ∧
    ∃ c ∈ gridOf rowsW, c.year = 2003 ∧ c.genre = "rock" :=
  ⟨by decide, by decide,
    (grid_dense rowsW).2.2.2.1 2003 (by decide) "rock" (by decide)⟩

end Spotify
